import Mathlib

/-!
Verification of the FLOWSS dose-to-flow-rate calculator.

The repository has two Python entry points, flowss.py and frdss.py. Each
defines a function dosetable that, for every sample dose in a list, computes
a flow rate, exposure time and sample volume from a beam dose rate, an SNR
dose and an illuminated volume, escalating through up to two attenuator
tiers whenever the computed sample volume exceeds a volume limit.

We embed the arithmetic over ℚ (exact rational arithmetic; Lean division is
total with x / 0 = 0, noted where it matters). Definitions mirror the Python
source line by line.
-/

namespace Flowss

/-- One output row of the calculator: flow rate (µL/s), exposure time (s),
sample volume (µL) and the attenuator tier engaged (0, 1 or 2). -/
structure DoseResult where
  flowRate : ℚ
  exposureTime : ℚ
  sampleVolume : ℚ
  attenuatorTier : ℕ
  deriving Repr, DecidableEq

/-- The loop body of dosetable in flowss.py (lines 184–217) for a single
sample dose: compute flow rate, time and volume at tier 0; if the volume
exceeds the limit recompute at tier 1 (effective rate doserate * a0); if it
still exceeds the limit recompute at tier 2 (effective rate doserate * a1)
and accept that result unconditionally. Here a0 and a1 are attenuators[0]
and attenuators[1] of the source. -/
def doseRow (doserate snr volumelimit illuminatedvolume a0 a1 sampledose : ℚ) :
    DoseResult :=
  let flowrate := doserate * illuminatedvolume / sampledose
  let time := (snr * flowrate) / (doserate * illuminatedvolume)
  let volume := time * flowrate
  if volume > volumelimit then
    let flowrate := (doserate * a0) * illuminatedvolume / sampledose
    let time := (snr * flowrate) / ((doserate * a0) * illuminatedvolume)
    let volume := time * flowrate
    if volume > volumelimit then
      let flowrate := (doserate * a1) * illuminatedvolume / sampledose
      let time := (snr * flowrate) / ((doserate * a1) * illuminatedvolume)
      let volume := time * flowrate
      ⟨flowrate, time, volume, 2⟩
    else
      ⟨flowrate, time, volume, 1⟩
  else
    ⟨flowrate, time, volume, 0⟩

/-- The per-dose loop of flowss.py, appending one row per sample dose in
input order (the four parallel list appends of the source collapse into one
list of records). -/
def dosetableRows (doserate snr volumelimit illuminatedvolume a0 a1 : ℚ) :
    List ℚ → List DoseResult
  | [] => []
  | sampledose :: rest =>
      doseRow doserate snr volumelimit illuminatedvolume a0 a1 sampledose ::
        dosetableRows doserate snr volumelimit illuminatedvolume a0 a1 rest

/-- dosetable of flowss.py (line 156): the illuminated volume is the product
of the three beam dimensions (line 181), then one row is produced per sample
dose. -/
def dosetable (doselist : List ℚ) (doserate snr volumelimit b0 b1 b2 a0 a1 : ℚ) :
    List DoseResult :=
  let illuminatedvolume := b0 * b1 * b2
  dosetableRows doserate snr volumelimit illuminatedvolume a0 a1 doselist

/-- The loop body of dosetable in frdss.py (lines 136–170): identical shape
with the illuminated volume fixed to the literal 0.125 and the attenuator
factors fixed to the literals 0.1 and 0.01. -/
def frdssDoseRow (doserate snr volumelimit sampledose : ℚ) : DoseResult :=
  let flowrate := doserate * 0.125 / sampledose
  let time := (snr * flowrate) / (doserate * 0.125)
  let volume := time * flowrate
  if volume > volumelimit then
    let flowrate := (doserate * 0.1) * 0.125 / sampledose
    let time := (snr * flowrate) / ((doserate * 0.1) * 0.125)
    let volume := time * flowrate
    if volume > volumelimit then
      let flowrate := (doserate * 0.01) * 0.125 / sampledose
      let time := (snr * flowrate) / ((doserate * 0.01) * 0.125)
      let volume := time * flowrate
      ⟨flowrate, time, volume, 2⟩
    else
      ⟨flowrate, time, volume, 1⟩
  else
    ⟨flowrate, time, volume, 0⟩

/-- dosetable of frdss.py (line 110): one row per sample dose. -/
def frdssDosetable (doselist : List ℚ) (doserate snr volumelimit : ℚ) :
    List DoseResult :=
  match doselist with
  | [] => []
  | sampledose :: rest =>
      frdssDoseRow doserate snr volumelimit sampledose ::
        frdssDosetable rest doserate snr volumelimit

/-- The effective dose rate the source uses at each tier: the base rate at
tier 0, doserate * attenuators[0] at tier 1, doserate * attenuators[1] at
tier 2 (recomputed from the base rate, not compounded). -/
def effRate (doserate a0 a1 : ℚ) : ℕ → ℚ
  | 0 => doserate
  | 1 => doserate * a0
  | _ => doserate * a1

/-- The three formulas of spec §4.1 evaluated at effective dose rate r,
tagging the result with the given tier. -/
def tierValues (r illuminatedvolume snr sampledose : ℚ) (tier : ℕ) : DoseResult :=
  let flowrate := r * illuminatedvolume / sampledose
  let time := (snr * flowrate) / (r * illuminatedvolume)
  let volume := time * flowrate
  ⟨flowrate, time, volume, tier⟩

/-- The sample volume the §4.1 formulas produce at tier t (the quantity the
tier-selection comparisons of the source inspect). -/
def tierVolume (doserate snr illuminatedvolume a0 a1 sampledose : ℚ) (t : ℕ) : ℚ :=
  (tierValues (effRate doserate a0 a1 t) illuminatedvolume snr sampledose t).sampleVolume

/-- Module-level parameter-file loading of flowss.py (lines 142–154): the
file is parsed into one list of rationals per line (content), and the six
parameter arrays are content[0] … content[5] in fixed order. In Python an
out-of-range index raises an uncaught IndexError, aborting the process
before dosetable is ever called; here that abort is the none case. -/
def loadFileParams (content : List (List ℚ)) :
    Option (List ℚ × List ℚ × List ℚ × List ℚ × List ℚ × List ℚ) := do
  let a ← content[0]?
  let b ← content[1]?
  let c ← content[2]?
  let d ← content[3]?
  let e ← content[4]?
  let f ← content[5]?
  pure (a, b, c, d, e, f)

/-- The flowss.py main path when a parameter file is supplied (lines
142–154, then the call on line 242): load the six parameter lines, then run
dosetable, whose rows are exactly what np.savetxt writes to dose.txt. The
none case models the nonzero-exit abort: no calculation runs and no output
file is written. Scalar parameters are the first entry of their line, as
the single-element arrays of the source broadcast as scalars. -/
def runWithFile (content : List (List ℚ)) : Option (List DoseResult) := do
  let (a, b, c, d, e, f) ← loadFileParams content
  pure (dosetable a (b.getD 0 0) (c.getD 0 0) (d.getD 0 0)
    (e.getD 0 0) (e.getD 1 0) (e.getD 2 0) (f.getD 0 0) (f.getD 1 0))

/-- C1: for every target dose the calculator computes, at the selected tier
with effective dose rate r, flowRate = r * illuminatedVolume / d,
exposureTime = (snrDose * flowRate) / (r * illuminatedVolume) and
sampleVolume = exposureTime * flowRate, where the tier-1 rate is
doseRate * attenuatorFactors[0] and the tier-2 rate is
doseRate * attenuatorFactors[1], recomputed from the base rate. -/
theorem doseRow_selected_tier_formulas
    (doserate snr volumelimit illuminatedvolume a0 a1 sampledose : ℚ) :
    doseRow doserate snr volumelimit illuminatedvolume a0 a1 sampledose =
      tierValues
        (effRate doserate a0 a1
          (doseRow doserate snr volumelimit illuminatedvolume a0 a1
            sampledose).attenuatorTier)
        illuminatedvolume snr sampledose
        (doseRow doserate snr volumelimit illuminatedvolume a0 a1
          sampledose).attenuatorTier := by
  simp only [doseRow, tierValues, effRate]
  split_ifs <;> rfl

/-- C2: tier selection is the strict three-step short-circuit chain: the
tier-0 values are computed first; only when the tier-0 sample volume exceeds
the limit are the tier-1 values computed; only when the tier-1 sample volume
still exceeds the limit are the tier-2 values computed and accepted
unconditionally; the emitted row carries the values of whichever tier was
evaluated last. -/
theorem doseRow_chain
    (doserate snr volumelimit illuminatedvolume a0 a1 sampledose : ℚ) :
    doseRow doserate snr volumelimit illuminatedvolume a0 a1 sampledose =
      (let t0 := tierValues doserate illuminatedvolume snr sampledose 0
       if t0.sampleVolume > volumelimit then
         let t1 := tierValues (doserate * a0) illuminatedvolume snr sampledose 1
         if t1.sampleVolume > volumelimit then
           tierValues (doserate * a1) illuminatedvolume snr sampledose 2
         else t1
       else t0) := by
  simp only [doseRow, tierValues]

/-- C6: in every branch of the tier-selection chain, the emitted sample
volume equals exposure time times flow rate. -/
theorem sampleVolume_identity
    (doserate snr volumelimit illuminatedvolume a0 a1 sampledose : ℚ) :
    (doseRow doserate snr volumelimit illuminatedvolume a0 a1
        sampledose).sampleVolume =
      (doseRow doserate snr volumelimit illuminatedvolume a0 a1
          sampledose).exposureTime *
        (doseRow doserate snr volumelimit illuminatedvolume a0 a1
            sampledose).flowRate := by
  simp only [doseRow]
  split_ifs <;> rfl

/-- C3: under strictly positive parameters the emitted tier is in {0,1,2}
and is the smallest t with tierVolume at t not exceeding the limit, or 2
when even the tier-2 volume exceeds the limit. -/
theorem attenuatorTier_minimal
    (doserate snr volumelimit illuminatedvolume a0 a1 sampledose : ℚ)
    (hdr : 0 < doserate) (hsnr : 0 < snr) (hI : 0 < illuminatedvolume)
    (ha0 : 0 < a0) (ha1 : 0 < a1) (hd : 0 < sampledose) :
    (doseRow doserate snr volumelimit illuminatedvolume a0 a1
        sampledose).attenuatorTier ≤ 2 ∧
    ((tierVolume doserate snr illuminatedvolume a0 a1 sampledose
        (doseRow doserate snr volumelimit illuminatedvolume a0 a1
          sampledose).attenuatorTier ≤ volumelimit ∧
      ∀ s < (doseRow doserate snr volumelimit illuminatedvolume a0 a1
          sampledose).attenuatorTier,
        volumelimit < tierVolume doserate snr illuminatedvolume a0 a1
          sampledose s) ∨
     ((doseRow doserate snr volumelimit illuminatedvolume a0 a1
         sampledose).attenuatorTier = 2 ∧
      ∀ s ≤ 2,
        volumelimit < tierVolume doserate snr illuminatedvolume a0 a1
          sampledose s)) := by
  simp only [doseRow, tierVolume, tierValues, effRate]
  split_ifs with h1 h2
  · by_cases h3 :
      snr * (doserate * a1 * illuminatedvolume / sampledose) /
          (doserate * a1 * illuminatedvolume) *
          (doserate * a1 * illuminatedvolume / sampledose) ≤ volumelimit
    · refine ⟨by norm_num, Or.inl ⟨h3, ?_⟩⟩
      intro s hs
      interval_cases s
      · exact h1
      · exact h2
    · refine ⟨by norm_num, Or.inr ⟨rfl, ?_⟩⟩
      intro s hs
      interval_cases s
      · exact h1
      · exact h2
      · exact lt_of_not_le h3
  · refine ⟨by norm_num, Or.inl ⟨le_of_not_lt h2, ?_⟩⟩
    intro s hs
    interval_cases s
    exact h1
  · refine ⟨by norm_num, Or.inl ⟨le_of_not_lt h1, ?_⟩⟩
    intro s hs
    exact absurd hs (Nat.not_lt_zero s)

/-- C3 witness at the documented defaults with dose 10 Gy. -/
theorem attenuatorTier_minimal_witness :
    (0 : ℚ) < 2300 ∧ (0 : ℚ) < 100 ∧ (0 : ℚ) < 1/8 ∧ (0 : ℚ) < 1/10 ∧
    (0 : ℚ) < 1/100 ∧ (0 : ℚ) < 10 ∧
    ((doseRow 2300 100 200 (1/8) (1/10) (1/100) 10).attenuatorTier ≤ 2 ∧
    ((tierVolume 2300 100 (1/8) (1/10) (1/100) 10
        (doseRow 2300 100 200 (1/8) (1/10) (1/100) 10).attenuatorTier ≤ 200 ∧
      ∀ s < (doseRow 2300 100 200 (1/8) (1/10) (1/100) 10).attenuatorTier,
        (200 : ℚ) < tierVolume 2300 100 (1/8) (1/10) (1/100) 10 s) ∨
     ((doseRow 2300 100 200 (1/8) (1/10) (1/100) 10).attenuatorTier = 2 ∧
      ∀ s ≤ 2, (200 : ℚ) < tierVolume 2300 100 (1/8) (1/10) (1/100) 10 s))) :=
  ⟨by norm_num, by norm_num, by norm_num, by norm_num, by norm_num, by norm_num,
    attenuatorTier_minimal 2300 100 200 (1/8) (1/10) (1/100) 10
      (by norm_num) (by norm_num) (by norm_num) (by norm_num) (by norm_num)
      (by norm_num)⟩

/-- C5: under strictly positive parameters the emitted exposure time equals
snr / sampledose exactly, independently of the selected tier. -/
theorem exposureTime_eq_snr_div_dose
    (doserate snr volumelimit illuminatedvolume a0 a1 sampledose : ℚ)
    (hdr : 0 < doserate) (hsnr : 0 < snr) (hI : 0 < illuminatedvolume)
    (ha0 : 0 < a0) (ha1 : 0 < a1) (hd : 0 < sampledose) :
    (doseRow doserate snr volumelimit illuminatedvolume a0 a1
        sampledose).exposureTime = snr / sampledose := by
  have h0 : doserate * illuminatedvolume ≠ 0 := by positivity
  have ha : doserate * a0 * illuminatedvolume ≠ 0 := by positivity
  have hb : doserate * a1 * illuminatedvolume ≠ 0 := by positivity
  have hdne : sampledose ≠ 0 := ne_of_gt hd
  simp only [doseRow]
  split_ifs <;> · field_simp; ring

/-- C5 witness at the documented defaults with dose 1 Gy (a tier-2 case). -/
theorem exposureTime_eq_snr_div_dose_witness :
    (0 : ℚ) < 2300 ∧ (0 : ℚ) < 100 ∧ (0 : ℚ) < 1/8 ∧ (0 : ℚ) < 1/10 ∧
    (0 : ℚ) < 1/100 ∧ (0 : ℚ) < 1 ∧
    (doseRow 2300 100 200 (1/8) (1/10) (1/100) 1).exposureTime = 100 / 1 :=
  ⟨by norm_num, by norm_num, by norm_num, by norm_num, by norm_num, by norm_num,
    exposureTime_eq_snr_div_dose 2300 100 200 (1/8) (1/10) (1/100) 1
      (by norm_num) (by norm_num) (by norm_num) (by norm_num) (by norm_num)
      (by norm_num)⟩

/-- Closed form of the tier selector: under positive parameters the emitted
tier depends only on how the quantities snr * r * illuminatedvolume /
sampledose ^ 2 at the tier-0 and tier-1 effective rates compare with the
volume limit. -/
lemma doseRow_tier_formula
    (doserate snr volumelimit illuminatedvolume a0 a1 sampledose : ℚ)
    (hdr : 0 < doserate) (hI : 0 < illuminatedvolume) (ha0 : 0 < a0)
    (hd : 0 < sampledose) :
    (doseRow doserate snr volumelimit illuminatedvolume a0 a1
        sampledose).attenuatorTier =
      if volumelimit <
          snr * doserate * illuminatedvolume / sampledose ^ 2 then
        (if volumelimit <
            snr * (doserate * a0) * illuminatedvolume / sampledose ^ 2 then
          2
        else 1)
      else 0 := by
  have hdne : sampledose ≠ 0 := ne_of_gt hd
  have h0 : doserate * illuminatedvolume ≠ 0 := by positivity
  have h1 : doserate * a0 * illuminatedvolume ≠ 0 := by positivity
  have e0 : snr * (doserate * illuminatedvolume / sampledose) /
        (doserate * illuminatedvolume) *
        (doserate * illuminatedvolume / sampledose) =
      snr * doserate * illuminatedvolume / sampledose ^ 2 := by
    field_simp
    ring
  have e1 : snr * (doserate * a0 * illuminatedvolume / sampledose) /
        (doserate * a0 * illuminatedvolume) *
        (doserate * a0 * illuminatedvolume / sampledose) =
      snr * (doserate * a0) * illuminatedvolume / sampledose ^ 2 := by
    field_simp
    ring
  simp only [doseRow, gt_iff_lt]
  rw [e0, e1]
  split_ifs <;> rfl

/-- Monotonicity of the three-way selector in its two compared volumes. -/
lemma tierSel_mono {L v0 v1 w0 w1 : ℚ} (h0 : v0 ≤ w0) (h1 : v1 ≤ w1) :
    (if L < v0 then (if L < v1 then 2 else 1) else 0 : ℕ) ≤
      (if L < w0 then (if L < w1 then 2 else 1) else 0) := by
  split_ifs <;> first | omega | (exfalso; linarith)

/-- C4: with the other parameters fixed and strictly positive, the emitted
tier is monotone non-decreasing in the dose rate (r1 ≤ r2) and monotone
non-increasing in the target dose (d1 ≤ d2). -/
theorem attenuatorTier_monotone
    (snr volumelimit illuminatedvolume a0 a1 : ℚ)
    (sampledose r1 r2 doserate d1 d2 : ℚ)
    (hsnr : 0 < snr) (hI : 0 < illuminatedvolume) (ha0 : 0 < a0)
    (ha1 : 0 < a1) (hd : 0 < sampledose) (hr1 : 0 < r1) (hr12 : r1 ≤ r2)
    (hdr : 0 < doserate) (hd1 : 0 < d1) (hd12 : d1 ≤ d2) :
    ((doseRow r1 snr volumelimit illuminatedvolume a0 a1
        sampledose).attenuatorTier ≤
      (doseRow r2 snr volumelimit illuminatedvolume a0 a1
        sampledose).attenuatorTier) ∧
    ((doseRow doserate snr volumelimit illuminatedvolume a0 a1
        d2).attenuatorTier ≤
      (doseRow doserate snr volumelimit illuminatedvolume a0 a1
        d1).attenuatorTier) := by
  have hr2 : 0 < r2 := lt_of_lt_of_le hr1 hr12
  have hd2 : 0 < d2 := lt_of_lt_of_le hd1 hd12
  constructor
  · rw [doseRow_tier_formula r1 snr volumelimit illuminatedvolume a0 a1
        sampledose hr1 hI ha0 hd,
      doseRow_tier_formula r2 snr volumelimit illuminatedvolume a0 a1
        sampledose hr2 hI ha0 hd]
    have hsq : (0 : ℚ) < sampledose ^ 2 := by positivity
    refine tierSel_mono ?_ ?_
    · exact (div_le_div_iff_of_pos_right hsq).mpr
        (by nlinarith [mul_pos hsnr hI])
    · exact (div_le_div_iff_of_pos_right hsq).mpr
        (by nlinarith [mul_pos (mul_pos hsnr ha0) hI])
  · rw [doseRow_tier_formula doserate snr volumelimit illuminatedvolume a0 a1
        d2 hdr hI ha0 hd2,
      doseRow_tier_formula doserate snr volumelimit illuminatedvolume a0 a1
        d1 hdr hI ha0 hd1]
    have hsq : d1 ^ 2 ≤ d2 ^ 2 := by nlinarith
    have hsq1 : (0 : ℚ) < d1 ^ 2 := by positivity
    refine tierSel_mono ?_ ?_
    · exact div_le_div_of_nonneg_left (by positivity) hsq1 hsq
    · exact div_le_div_of_nonneg_left (by positivity) hsq1 hsq

/-- C4 witness at the documented defaults: dose rate 2300 against 4600 at
dose 10 Gy, and dose 10 Gy against 100 Gy at rate 2300. -/
theorem attenuatorTier_monotone_witness :
    (0 : ℚ) < 100 ∧ (0 : ℚ) < 1/8 ∧ (0 : ℚ) < 1/10 ∧ (0 : ℚ) < 1/100 ∧
    (0 : ℚ) < 10 ∧ (0 : ℚ) < 2300 ∧ (2300 : ℚ) ≤ 4600 ∧
    (0 : ℚ) < 2300 ∧ (0 : ℚ) < 10 ∧ (10 : ℚ) ≤ 100 ∧
    (((doseRow 2300 100 200 (1/8) (1/10) (1/100) 10).attenuatorTier ≤
        (doseRow 4600 100 200 (1/8) (1/10) (1/100) 10).attenuatorTier) ∧
      ((doseRow 2300 100 200 (1/8) (1/10) (1/100) 100).attenuatorTier ≤
        (doseRow 2300 100 200 (1/8) (1/10) (1/100) 10).attenuatorTier)) :=
  ⟨by norm_num, by norm_num, by norm_num, by norm_num, by norm_num,
    by norm_num, by norm_num, by norm_num, by norm_num, by norm_num,
    attenuatorTier_monotone 100 200 (1/8) (1/10) (1/100) 10 2300 4600 2300
      10 100 (by norm_num) (by norm_num) (by norm_num) (by norm_num)
      (by norm_num) (by norm_num) (by norm_num) (by norm_num) (by norm_num)
      (by norm_num)⟩

/-- One row of frdss.py equals one row of flowss.py at illuminated volume
0.125 and attenuator factors 0.1 and 0.01: the two loop bodies are
expression-for-expression identical after that substitution. -/
lemma frdssDoseRow_eq_doseRow (doserate snr volumelimit sampledose : ℚ) :
    frdssDoseRow doserate snr volumelimit sampledose =
      doseRow doserate snr volumelimit 0.125 0.1 0.01 sampledose := rfl

/-- C7: the two entry points encode the same algorithm: for every doselist,
doserate, snr and volumelimit, the rows of frdss.py equal the rows of
flowss.py whenever the beam dimensions multiply to 0.125 and the attenuator
factors are 0.1 and 0.01. -/
theorem frdss_flowss_equiv
    (doselist : List ℚ) (doserate snr volumelimit b0 b1 b2 : ℚ)
    (hb : b0 * b1 * b2 = 0.125) :
    frdssDosetable doselist doserate snr volumelimit =
      dosetable doselist doserate snr volumelimit b0 b1 b2 0.1 0.01 := by
  simp only [dosetable, hb]
  induction doselist with
  | nil => rfl
  | cons d rest ih =>
      simp only [frdssDosetable, dosetableRows, ih,
        frdssDoseRow_eq_doseRow]

/-- C7 witness: beam dimensions 0.5 × 0.5 × 0.5 multiply to 0.125, and the
two tables agree at the documented default inputs. -/
theorem frdss_flowss_equiv_witness :
    ((1 : ℚ)/2 * (1/2) * (1/2) = 0.125) ∧
    frdssDosetable [100, 10, 1] 2300 100 200 =
      dosetable [100, 10, 1] 2300 100 200 (1/2) (1/2) (1/2) 0.1 0.01 :=
  ⟨by norm_num,
    frdss_flowss_equiv [100, 10, 1] 2300 100 200 (1/2) (1/2) (1/2)
      (by norm_num)⟩

/-- C9: the calculator emits exactly one row per input dose and preserves
input order: the output has the same length as the input list and the i-th
output row is the loop body applied to the i-th input dose. -/
theorem dosetable_order_preserved
    (doselist : List ℚ) (doserate snr volumelimit b0 b1 b2 a0 a1 : ℚ) :
    (dosetable doselist doserate snr volumelimit b0 b1 b2 a0 a1).length =
        doselist.length ∧
      ∀ i : ℕ,
        (dosetable doselist doserate snr volumelimit b0 b1 b2 a0 a1)[i]? =
          doselist[i]?.map
            (doseRow doserate snr volumelimit (b0 * b1 * b2) a0 a1) := by
  have hmap : dosetable doselist doserate snr volumelimit b0 b1 b2 a0 a1 =
      doselist.map
        (doseRow doserate snr volumelimit (b0 * b1 * b2) a0 a1) := by
    simp only [dosetable]
    induction doselist with
    | nil => rfl
    | cons d rest ih => simp only [dosetableRows, List.map_cons, ih]
  rw [hmap]
  exact ⟨List.length_map _ _, fun i => List.getElem?_map _ _ _⟩

/-- C8: a parameter file with fewer than the required 6 lines aborts the
run during loading: no calculation is performed and no output is produced
(none models the nonzero exit with no dose.txt written). -/
theorem runWithFile_short_file_aborts
    (content : List (List ℚ)) (h : content.length < 6) :
    runWithFile content = none := by
  rcases content with _ | ⟨l0, _ | ⟨l1, _ | ⟨l2, _ | ⟨l3, _ | ⟨l4, _ |
    ⟨l5, rest⟩⟩⟩⟩⟩⟩
  · rfl
  · rfl
  · rfl
  · rfl
  · rfl
  · rfl
  · simp only [List.length_cons] at h
    omega

/-- C8 witness: a concrete 5-line parameter file is rejected with no
output. -/
theorem runWithFile_short_file_aborts_witness :
    ([[100, 10, 1], [2300], [100], [200], [1/2, 1/2, 1/2]] :
        List (List ℚ)).length < 6 ∧
    runWithFile [[100, 10, 1], [2300], [100], [200], [1/2, 1/2, 1/2]] =
      none :=
  ⟨by norm_num,
    runWithFile_short_file_aborts
      [[100, 10, 1], [2300], [100], [200], [1/2, 1/2, 1/2]] (by norm_num)⟩

/-- Under strictly positive parameters every field of a row is strictly
positive, whichever tier is selected. -/
lemma doseRow_pos
    (doserate snr volumelimit illuminatedvolume a0 a1 sampledose : ℚ)
    (hdr : 0 < doserate) (hsnr : 0 < snr) (hI : 0 < illuminatedvolume)
    (ha0 : 0 < a0) (ha1 : 0 < a1) (hd : 0 < sampledose) :
    0 < (doseRow doserate snr volumelimit illuminatedvolume a0 a1
        sampledose).flowRate ∧
    0 < (doseRow doserate snr volumelimit illuminatedvolume a0 a1
        sampledose).exposureTime ∧
    0 < (doseRow doserate snr volumelimit illuminatedvolume a0 a1
        sampledose).sampleVolume := by
  simp only [doseRow]
  split_ifs <;> dsimp only <;>
    exact ⟨by positivity, by positivity, by positivity⟩

/-- C10: when the target dose, dose rate, SNR dose, beam dimensions and
attenuator factors are all strictly positive, every denominator either
entry point divides by is nonzero, and every emitted flow rate, exposure
time and sample volume is strictly positive (hence finite: the exact
arithmetic never divides by zero). -/
theorem doseRow_safe
    (doserate snr volumelimit b0 b1 b2 a0 a1 sampledose : ℚ)
    (hdr : 0 < doserate) (hsnr : 0 < snr) (hb0 : 0 < b0) (hb1 : 0 < b1)
    (hb2 : 0 < b2) (ha0 : 0 < a0) (ha1 : 0 < a1) (hd : 0 < sampledose) :
    (sampledose ≠ 0 ∧
      doserate * (b0 * b1 * b2) ≠ 0 ∧
      doserate * a0 * (b0 * b1 * b2) ≠ 0 ∧
      doserate * a1 * (b0 * b1 * b2) ≠ 0 ∧
      doserate * (0.125 : ℚ) ≠ 0 ∧
      doserate * (0.1 : ℚ) * 0.125 ≠ 0 ∧
      doserate * (0.01 : ℚ) * 0.125 ≠ 0) ∧
    (0 < (doseRow doserate snr volumelimit (b0 * b1 * b2) a0 a1
        sampledose).flowRate ∧
      0 < (doseRow doserate snr volumelimit (b0 * b1 * b2) a0 a1
        sampledose).exposureTime ∧
      0 < (doseRow doserate snr volumelimit (b0 * b1 * b2) a0 a1
        sampledose).sampleVolume) ∧
    (0 < (frdssDoseRow doserate snr volumelimit sampledose).flowRate ∧
      0 < (frdssDoseRow doserate snr volumelimit sampledose).exposureTime ∧
      0 < (frdssDoseRow doserate snr volumelimit
        sampledose).sampleVolume) := by
  refine ⟨⟨ne_of_gt hd, by positivity, by positivity, by positivity,
    by positivity, by positivity, by positivity⟩, ?_, ?_⟩
  · exact doseRow_pos doserate snr volumelimit (b0 * b1 * b2) a0 a1
      sampledose hdr hsnr (by positivity) ha0 ha1 hd
  · rw [frdssDoseRow_eq_doseRow]
    exact doseRow_pos doserate snr volumelimit 0.125 0.1 0.01 sampledose
      hdr hsnr (by norm_num) (by norm_num) (by norm_num) hd

/-- C10 witness at the documented defaults with dose 10 Gy. -/
theorem doseRow_safe_witness :
    (0 : ℚ) < 2300 ∧ (0 : ℚ) < 100 ∧ (0 : ℚ) < 321/1000 ∧
    (0 : ℚ) < 303/1000 ∧ (0 : ℚ) < 1 ∧ (0 : ℚ) < 1/10 ∧
    (0 : ℚ) < 1/100 ∧ (0 : ℚ) < 10 ∧
    0 < (doseRow 2300 100 200 (321/1000 * (303/1000) * 1) (1/10) (1/100)
        10).flowRate ∧
    0 < (frdssDoseRow 2300 100 200 10).sampleVolume :=
  ⟨by norm_num, by norm_num, by norm_num, by norm_num, by norm_num,
    by norm_num, by norm_num, by norm_num,
    (doseRow_safe 2300 100 200 (321/1000) (303/1000) 1 (1/10) (1/100) 10
      (by norm_num) (by norm_num) (by norm_num) (by norm_num) (by norm_num)
      (by norm_num) (by norm_num) (by norm_num)).2.1.1,
    (doseRow_safe 2300 100 200 (321/1000) (303/1000) 1 (1/10) (1/100) 10
      (by norm_num) (by norm_num) (by norm_num) (by norm_num) (by norm_num)
      (by norm_num) (by norm_num) (by norm_num)).2.2.2.2⟩

end Flowss
